import Mathlib

set_option autoImplicit false

namespace EduMatrix

/-! # Rounding

Python rounds half to even.  round(x, 2) rounds to two decimal places.
Marks are modelled as rationals, so the rounding is the ideal decimal one. -/

/-- Round a rational to the nearest integer, ties to even. -/
def roundHalfEven (x : ℚ) : ℤ :=
  let n : ℤ := Int.fdiv x.num x.den
  let frac : ℚ := x - n
  if frac < 1/2 then n
  else if 1/2 < frac then n + 1
  else if n % 2 = 0 then n else n + 1

/-- round(x, 2): round to two decimal places, ties to even. -/
def round2 (x : ℚ) : ℚ := (roundHalfEven (100 * x) : ℚ) / 100

/-! # Data model

The record types mirror the pydantic models in backend/server.py.  Opaque
generated fields that no claim depends on (created_at, exam_date, question
text) are omitted; ids and all fields read by the handlers are kept. -/

/-- A document of the users collection.  Students carry semester, program_id,
roll_number and course_ids; teachers carry assigned_courses; for the other
roles those fields are absent (modelled as none / []). -/
structure User where
  id : String
  name : String
  email : String
  role : String
  password_hash : String
  roll_number : Option String
  semester : Option Int
  program_id : Option String
  course_ids : List String
  assigned_courses : List String
deriving DecidableEq

structure Program where
  id : String
  name : String
deriving DecidableEq

structure Course where
  id : String
  name : String
  semester : Int
  program_id : String
deriving DecidableEq

structure CourseOutcome where
  id : String
  course_id : String
  co_code : String
  description : String
deriving DecidableEq

structure ProgramOutcome where
  id : String
  po_code : String
  description : String
deriving DecidableEq

structure COPOMap where
  id : String
  co_id : String
  po_id : String
deriving DecidableEq

structure Exam where
  id : String
  course_id : String
  exam_type : String
deriving DecidableEq

structure Question where
  id : String
  exam_id : String
  max_marks : ℚ
  co_id : String
  po_ids : List String
deriving DecidableEq

structure StudentMark where
  id : String
  student_id : String
  question_id : String
  marks_obtained : ℚ
deriving DecidableEq

/-- The Record Store snapshot: one list per mongo collection, in insertion
order.  find_one is the first match, find is the filter. -/
structure DB where
  users : List User
  programs : List Program
  courses : List Course
  course_outcomes : List CourseOutcome
  program_outcomes : List ProgramOutcome
  co_po_maps : List COPOMap
  exams : List Exam
  questions : List Question
  student_marks : List StudentMark
deriving DecidableEq

/-! # Result Cache

The module-level dict _cache maps a cache key to (data, timestamp).  The
stored values are the cached endpoint results; the dict is untyped in the
source but each key only ever holds the list type of its own endpoint, so
the value is modelled as a sum of those list types. -/

inductive CacheVal where
  | programs (l : List Program)
  | courses (l : List Course)
  | courseOutcomes (l : List CourseOutcome)
  | programOutcomes (l : List ProgramOutcome)
  | users (l : List User)
deriving DecidableEq

/-! Python dicts keyed by strings (the cache, co_performance,
attainment_data, class_co_attainment) are modelled as association lists
with unique keys; the three dict primitives are shared. -/

/-- Dict lookup d[k] (none when absent). -/
def dictFind {α : Type} (l : List (String × α)) (k : String) : Option α :=
  (l.find? (fun e => e.1 == k)).map (fun e => e.2)

/-- Dict deletion del d[k]: the key is absent afterwards, all other
entries are untouched. -/
def dictErase {α : Type} (l : List (String × α)) (k : String) : List (String × α) :=
  l.filter (fun e => !(e.1 == k))

/-- Dict assignment d[k] = v: overwrite in place, or append. -/
def dictSet {α : Type} : List (String × α) → String → α → List (String × α)
  | [], k, v => [(k, v)]
  | e :: es, k, v => if e.1 == k then (k, v) :: es else e :: dictSet es k v

/-- The cache dict: key to (data, timestamp). -/
abbrev Cache := List (String × CacheVal × ℚ)

def get_cache_key (p key : String) : String := p ++ ":" ++ key

/-- get_cached_data(cache_key, ttl): the stored value if it is younger than
ttl seconds, else evict it and miss. -/
def get_cached_data (cache : Cache) (cache_key : String) (ttl : ℚ) (now : ℚ) :
    Option CacheVal × Cache :=
  match dictFind cache cache_key with
  | some (data, timestamp) =>
      if now - timestamp < ttl then (some data, cache)
      else (none, dictErase cache cache_key)
  | none => (none, cache)

/-- set_cached_data(cache_key, data): store data with the current timestamp. -/
def set_cached_data (cache : Cache) (cache_key : String) (data : CacheVal) (now : ℚ) : Cache :=
  dictSet cache cache_key (data, now)

/-! # Attainment Aggregator -/

/-- One step of the co_performance accumulation: add max_marks to
total_marks and marks_obtained to obtained_marks of the co_id group,
creating the group at first sight.  Entries are (co_id, total, obtained). -/
def addPerf : List (String × ℚ × ℚ) → String → ℚ → ℚ → List (String × ℚ × ℚ)
  | [], co_id, m, o => [(co_id, m, o)]
  | e :: rest, co_id, m, o =>
      if e.1 = co_id then (e.1, e.2.1 + m, e.2.2 + o) :: rest
      else e :: addPerf rest co_id m o

/-- The body of the marks loop of get_student_co_attainment: resolve the
mark's question by point lookup; a mark whose question is missing is
skipped; otherwise accumulate into the question's co_id group. -/
def perfStep (questions : List Question) (perf : List (String × ℚ × ℚ))
    (mark : StudentMark) : List (String × ℚ × ℚ) :=
  match questions.find? (fun q => q.id == mark.question_id) with
  | some question => addPerf perf question.co_id question.max_marks mark.marks_obtained
  | none => perf

/-- The co_performance dict of get_student_co_attainment. -/
def coPerformance (questions : List Question) (marks : List StudentMark) :
    List (String × ℚ × ℚ) :=
  marks.foldl (perfStep questions) []

structure COAttainment where
  co_code : String
  description : String
  attainment_percentage : ℚ
  total_marks : ℚ
  obtained_marks : ℚ
deriving DecidableEq

/-- One entry of the attainment_data dict: resolve the CourseOutcome for
code and description (missing record degrades to the placeholder), and
guard the division by total_marks > 0. -/
def mkCOAttainment (course_outcomes : List CourseOutcome) (co_id : String)
    (total obtained : ℚ) : COAttainment :=
  let attainment_percentage : ℚ := if total > 0 then obtained / total * 100 else 0
  match course_outcomes.find? (fun c => c.id == co_id) with
  | some co =>
      { co_code := co.co_code, description := co.description,
        attainment_percentage := round2 attainment_percentage,
        total_marks := total, obtained_marks := obtained }
  | none =>
      { co_code := "Unknown", description := "Unknown",
        attainment_percentage := round2 attainment_percentage,
        total_marks := total, obtained_marks := obtained }

/-- GET /analytics/student/{student_id}/co-attainment: the attainment_data
dict keyed by co_id. -/
def get_student_co_attainment (db : DB) (student_id : String) :
    List (String × COAttainment) :=
  let student_marks := db.student_marks.filter (fun m => m.student_id == student_id)
  let co_performance := coPerformance db.questions student_marks
  co_performance.map (fun e => (e.1, mkCOAttainment db.course_outcomes e.1 e.2.1 e.2.2))

structure StudentAttainment where
  student_name : String
  attainment_percentage : ℚ
deriving DecidableEq

structure ClassCOEntry where
  co_code : String
  description : String
  student_attainments : List StudentAttainment
deriving DecidableEq

structure ClassCOResult where
  co_code : String
  description : String
  student_attainments : List StudentAttainment
  class_average : ℚ
deriving DecidableEq

/-- One step of the class_co_attainment accumulation: create the co_id
entry at first sight (code and description taken from the first
contributing student's data) and append (student_name, percentage). -/
def addClassEntry : List (String × ClassCOEntry) → String → COAttainment → String →
    List (String × ClassCOEntry)
  | [], co_id, data, student_name =>
      [(co_id, { co_code := data.co_code, description := data.description,
                 student_attainments := [⟨student_name, data.attainment_percentage⟩] })]
  | e :: rest, co_id, data, student_name =>
      if e.1 = co_id then
        (e.1, { e.2 with student_attainments :=
                  e.2.student_attainments ++ [⟨student_name, data.attainment_percentage⟩] }) :: rest
      else e :: addClassEntry rest co_id data student_name

/-- The students enrolled in a course: users with role student whose
course_ids contain the course. -/
def enrolledStudents (db : DB) (course_id : String) : List User :=
  db.users.filter (fun u => u.role == "student" && u.course_ids.contains course_id)

/-- The body of the students loop of get_class_co_attainment: fold one
student's whole attainment dict into the accumulator. -/
def classStep (db : DB) (acc : List (String × ClassCOEntry)) (student : User) :
    List (String × ClassCOEntry) :=
  (get_student_co_attainment db student.id).foldl
    (fun acc e => addClassEntry acc e.1 e.2 student.name) acc

/-- The final pass of get_class_co_attainment: attach the class average of
the collected percentages, 0 for an empty list. -/
def finalizeClassEntry (e : ClassCOEntry) : ClassCOResult :=
  let attainments := e.student_attainments.map (fun s => s.attainment_percentage)
  { co_code := e.co_code, description := e.description,
    student_attainments := e.student_attainments,
    class_average :=
      if attainments ≠ [] then round2 (attainments.sum / attainments.length) else 0 }

/-- GET /analytics/course/{course_id}/class-co-attainment: per-student
attainment merged by co_id, then a class average of the collected
percentages is attached to every entry. -/
def get_class_co_attainment (db : DB) (course_id : String) :
    List (String × ClassCOResult) :=
  let students := enrolledStudents db course_id
  let class_co : List (String × ClassCOEntry) := students.foldl (classStep db) []
  class_co.map (fun e => (e.1, finalizeClassEntry e.2))

/-! # Identity and access -/

inductive ApiError where
  | unauthenticated
  | forbidden
  | conflict
  | notFound
deriving DecidableEq

/-- The bearer credential of a request, after the transport layer.
missing: no usable Authorization header (the bearer-extraction collaborator
rejects the request before the handler).  invalid: jwt.decode raises
(malformed token or expired signature).  noSub: the payload decodes but has
no sub claim.  token email: the payload decodes to sub = email. -/
inductive Credential where
  | missing
  | invalid
  | noSub
  | token (email : String)
deriving DecidableEq

/-- get_current_user: resolve the credential to a users document or fail
with 401; an email that matches no stored user is also 401. -/
def get_current_user (db : DB) (cred : Credential) : Except ApiError User :=
  match cred with
  | .missing => .error .unauthenticated
  | .invalid => .error .unauthenticated
  | .noSub => .error .unauthenticated
  | .token email =>
      match db.users.find? (fun u => u.email == email) with
      | none => .error .unauthenticated
      | some user => .ok user

/-- require_role(required_role): resolve the current user, then 403 unless
the stored role is literally the required one. -/
def require_role (required_role : String) (db : DB) (cred : Credential) :
    Except ApiError User :=
  match get_current_user db cred with
  | .error e => .error e
  | .ok current_user =>
      if current_user.role ≠ required_role then .error .forbidden
      else .ok current_user

/-! # Write handlers

Each handler is modelled as a function of the store and the cache; the
generated uuid and any timestamp are passed in as arguments.  insert_one
appends to the collection. -/

def create_program (db : DB) (cache : Cache) (id name : String) : DB × Cache :=
  ({ db with programs := db.programs ++ [{ id := id, name := name }] }, cache)

def create_course (db : DB) (cache : Cache) (id name : String) (semester : Int)
    (program_id : String) : DB × Cache :=
  ({ db with courses := db.courses ++
      [{ id := id, name := name, semester := semester, program_id := program_id }] }, cache)

def create_course_outcome (db : DB) (cache : Cache) (id course_id co_code description : String) :
    DB × Cache :=
  ({ db with course_outcomes := db.course_outcomes ++
      [{ id := id, course_id := course_id, co_code := co_code, description := description }] },
   cache)

/-- POST /program-outcomes: insert, then clear the one well-known key. -/
def create_program_outcome (db : DB) (cache : Cache) (id po_code description : String) :
    DB × Cache :=
  ({ db with program_outcomes := db.program_outcomes ++
      [{ id := id, po_code := po_code, description := description }] },
   dictErase cache (get_cache_key "program_outcomes" "all"))

def create_co_po_mapping (db : DB) (cache : Cache) (id co_id po_id : String) : DB × Cache :=
  ({ db with co_po_maps := db.co_po_maps ++ [{ id := id, co_id := co_id, po_id := po_id }] },
   cache)

def create_exam (db : DB) (cache : Cache) (id course_id exam_type : String) : DB × Cache :=
  ({ db with exams := db.exams ++
      [{ id := id, course_id := course_id, exam_type := exam_type }] }, cache)

def create_question (db : DB) (cache : Cache) (id exam_id : String) (max_marks : ℚ)
    (co_id : String) (po_ids : List String) : DB × Cache :=
  ({ db with questions := db.questions ++
      [{ id := id, exam_id := exam_id, max_marks := max_marks, co_id := co_id,
         po_ids := po_ids }] }, cache)

def create_student_marks (db : DB) (cache : Cache) (id student_id question_id : String)
    (marks_obtained : ℚ) : DB × Cache :=
  ({ db with student_marks := db.student_marks ++
      [{ id := id, student_id := student_id, question_id := question_id,
         marks_obtained := marks_obtained }] }, cache)

/-- POST /auth/register: reject an email that is already stored (whatever
the stored user's role), else insert a user with the requested role. -/
def register (db : DB) (cache : Cache) (id name email password_hash role : String)
    (semester : Option Int) (program_id : Option String) :
    Except ApiError User × DB × Cache :=
  match db.users.find? (fun u => u.email == email) with
  | some _ => (.error .conflict, db, cache)
  | none =>
      let user : User :=
        { id := id, name := name, email := email, role := role,
          password_hash := password_hash, roll_number := none, semester := semester,
          program_id := program_id, course_ids := [], assigned_courses := [] }
      (.ok user, { db with users := db.users ++ [user] }, cache)

/-- POST /admin/students: same duplicate-email check, role forced to
student. -/
def create_student (db : DB) (cache : Cache) (id name roll_number email password_hash : String)
    (semester : Int) (program_id : String) (course_ids : List String) :
    Except ApiError User × DB × Cache :=
  match db.users.find? (fun u => u.email == email) with
  | some _ => (.error .conflict, db, cache)
  | none =>
      let user : User :=
        { id := id, name := name, email := email, role := "student",
          password_hash := password_hash, roll_number := some roll_number,
          semester := some semester, program_id := some program_id,
          course_ids := course_ids, assigned_courses := [] }
      (.ok user, { db with users := db.users ++ [user] }, cache)

/-- POST /admin/teachers: same duplicate-email check, role forced to
teacher, and on success the admin_teachers:all key is cleared. -/
def create_teacher (db : DB) (cache : Cache) (id name email password_hash : String)
    (assigned_courses : List String) : Except ApiError User × DB × Cache :=
  match db.users.find? (fun u => u.email == email) with
  | some _ => (.error .conflict, db, cache)
  | none =>
      let user : User :=
        { id := id, name := name, email := email, role := "teacher",
          password_hash := password_hash, roll_number := none, semester := none,
          program_id := none, course_ids := [], assigned_courses := assigned_courses }
      (.ok user, { db with users := db.users ++ [user] },
       dictErase cache (get_cache_key "admin_teachers" "all"))

/-! # Cached list endpoints

Each read endpoint consults the cache under its own key and ttl; a hit is
served only when the cached value is truthy in Python, that is a non-empty
list; otherwise the store is queried and the result cached. -/

def get_programs (db : DB) (cache : Cache) (now : ℚ) : List Program × Cache :=
  let cache_key := get_cache_key "programs" "all"
  let r := get_cached_data cache cache_key 60 now
  let recompute : List Program × Cache :=
    let result := db.programs
    (result, set_cached_data r.2 cache_key (.programs result) now)
  match r.1 with
  | some (.programs l) => if l = [] then recompute else (l, r.2)
  | _ => recompute

def get_courses (db : DB) (cache : Cache) (now : ℚ) : List Course × Cache :=
  let cache_key := get_cache_key "courses" "all"
  let r := get_cached_data cache cache_key 60 now
  let recompute : List Course × Cache :=
    let result := db.courses
    (result, set_cached_data r.2 cache_key (.courses result) now)
  match r.1 with
  | some (.courses l) => if l = [] then recompute else (l, r.2)
  | _ => recompute

def get_courses_by_program (db : DB) (cache : Cache) (now : ℚ) (program_id : String) :
    List Course × Cache :=
  let cache_key := get_cache_key "courses" ("program_" ++ program_id)
  let r := get_cached_data cache cache_key 60 now
  let recompute : List Course × Cache :=
    let result := db.courses.filter (fun c => c.program_id == program_id)
    (result, set_cached_data r.2 cache_key (.courses result) now)
  match r.1 with
  | some (.courses l) => if l = [] then recompute else (l, r.2)
  | _ => recompute

def get_course_outcomes_by_course (db : DB) (cache : Cache) (now : ℚ) (course_id : String) :
    List CourseOutcome × Cache :=
  let cache_key := get_cache_key "course_outcomes" ("course_" ++ course_id)
  let r := get_cached_data cache cache_key 60 now
  let recompute : List CourseOutcome × Cache :=
    let result := db.course_outcomes.filter (fun c => c.course_id == course_id)
    (result, set_cached_data r.2 cache_key (.courseOutcomes result) now)
  match r.1 with
  | some (.courseOutcomes l) => if l = [] then recompute else (l, r.2)
  | _ => recompute

def get_program_outcomes (db : DB) (cache : Cache) (now : ℚ) :
    List ProgramOutcome × Cache :=
  let cache_key := get_cache_key "program_outcomes" "all"
  let r := get_cached_data cache cache_key 60 now
  let recompute : List ProgramOutcome × Cache :=
    let result := db.program_outcomes
    (result, set_cached_data r.2 cache_key (.programOutcomes result) now)
  match r.1 with
  | some (.programOutcomes l) => if l = [] then recompute else (l, r.2)
  | _ => recompute

/-- The projection that excludes password_hash from an admin listing. -/
def sansSecret (u : User) : User := { u with password_hash := "" }

def get_all_students (db : DB) (cache : Cache) (now : ℚ) : List User × Cache :=
  let cache_key := get_cache_key "admin_students" "all"
  let r := get_cached_data cache cache_key 30 now
  let recompute : List User × Cache :=
    let result := (db.users.filter (fun u => u.role == "student")).map sansSecret
    (result, set_cached_data r.2 cache_key (.users result) now)
  match r.1 with
  | some (.users l) => if l = [] then recompute else (l, r.2)
  | _ => recompute

def get_all_teachers (db : DB) (cache : Cache) (now : ℚ) : List User × Cache :=
  let cache_key := get_cache_key "admin_teachers" "all"
  let r := get_cached_data cache cache_key 30 now
  let recompute : List User × Cache :=
    let result := (db.users.filter (fun u => u.role == "teacher")).map sansSecret
    (result, set_cached_data r.2 cache_key (.users result) now)
  match r.1 with
  | some (.users l) => if l = [] then recompute else (l, r.2)
  | _ => recompute

/-! # Analytics endpoints as cache transformers

The two analytics handlers never touch the module cache; threading the
cache through them makes that frame explicit. -/

def get_student_co_attainment_endpoint (db : DB) (cache : Cache) (student_id : String) :
    List (String × COAttainment) × Cache :=
  (get_student_co_attainment db student_id, cache)

def get_class_co_attainment_endpoint (db : DB) (cache : Cache) (course_id : String) :
    List (String × ClassCOResult) × Cache :=
  (get_class_co_attainment db course_id, cache)

/-! # Derived, declarative readings used to state the claims -/

/-- The (max_marks, marks_obtained) contributions of a mark list to one CO:
every mark whose question resolves and carries that co_id, in order. -/
def coContribs (questions : List Question) (marks : List StudentMark) (co : String) :
    List (ℚ × ℚ) :=
  marks.filterMap (fun mark =>
    match questions.find? (fun q => q.id == mark.question_id) with
    | some q => if q.co_id = co then some (q.max_marks, mark.marks_obtained) else none
    | none => none)

/-- The marks of one student, as the aggregator fetches them. -/
def marksOf (db : DB) (student_id : String) : List StudentMark :=
  db.student_marks.filter (fun m => m.student_id == student_id)

/-- Sum of achievable marks a student's marks attach to one CO. -/
def sumMax (db : DB) (student_id co : String) : ℚ :=
  ((coContribs db.questions (marksOf db student_id) co).map Prod.fst).sum

/-- Sum of obtained marks a student's marks attach to one CO. -/
def sumObt (db : DB) (student_id co : String) : ℚ :=
  ((coContribs db.questions (marksOf db student_id) co).map Prod.snd).sum

/-- The (student_name, percentage) pairs of the enrolled students that have
any attainment data for one CO; students without data are absent. -/
def classContribs (db : DB) (course_id co : String) : List StudentAttainment :=
  (enrolledStudents db course_id).filterMap (fun s =>
    (dictFind (get_student_co_attainment db s.id) co).map
      (fun d => ⟨s.name, d.attainment_percentage⟩))

/-- Global email uniqueness across the users collection. -/
def emailsUnique (db : DB) : Prop :=
  db.users.Pairwise (fun a b => a.email ≠ b.email)

instance (db : DB) : Decidable (emailsUnique db) := by
  unfold emailsUnique; infer_instance

/-- Accumulate a list of (max, obtained) contributions onto an optional
group: absent stays absent only when there is nothing to add. -/
def optAcc : Option (ℚ × ℚ) → List (ℚ × ℚ) → Option (ℚ × ℚ)
  | some v, cs => some (v.1 + (cs.map Prod.fst).sum, v.2 + (cs.map Prod.snd).sum)
  | none, [] => none
  | none, c :: cs => optAcc (some c) cs

/-- Append a list of student contributions onto an optional entry list:
absent stays absent only when there is nothing to append. -/
def optApp (x : Option (List StudentAttainment)) (cs : List StudentAttainment) :
    Option (List StudentAttainment) :=
  match x with
  | some l => some (l ++ cs)
  | none => if cs = [] then none else some cs

/-! # Concrete states used to instantiate the theorems -/

def emptyDB : DB := ⟨[], [], [], [], [], [], [], [], []⟩

def dbC1 : DB :=
  { emptyDB with
    questions := [⟨"q1", "e1", 10, "co1", []⟩],
    course_outcomes := [⟨"co1", "c1", "CO1", "d1"⟩],
    student_marks := [⟨"m1", "s1", "q1", 17/2⟩] }

def entryC1 : COAttainment := ⟨"CO1", "d1", 85, 10, 17/2⟩

def aliceC2 : User :=
  { id := "sa", name := "Alice", email := "a@x", role := "student", password_hash := "h",
    roll_number := none, semester := some 1, program_id := some "p1",
    course_ids := ["c1"], assigned_courses := [] }

def bobC2 : User :=
  { id := "sb", name := "Bob", email := "b@x", role := "student", password_hash := "h",
    roll_number := none, semester := some 1, program_id := some "p1",
    course_ids := ["c1"], assigned_courses := [] }

def dbC2 : DB :=
  { emptyDB with
    users := [aliceC2, bobC2],
    questions := [⟨"q1", "e1", 10, "co1", []⟩],
    course_outcomes := [⟨"co1", "c1", "CO1", "d1"⟩],
    student_marks := [⟨"m1", "sa", "q1", 17/2⟩] }

def entryC2 : ClassCOResult := ⟨"CO1", "d1", [⟨"Alice", 85⟩], 85⟩

def teacherC3 : User :=
  { id := "t1", name := "Tom", email := "t@x", role := "teacher", password_hash := "h",
    roll_number := none, semester := none, program_id := none,
    course_ids := [], assigned_courses := [] }

def dbC3 : DB := { emptyDB with users := [teacherC3] }

def dbC4 : DB :=
  { emptyDB with
    questions := [⟨"q1", "e1", 10, "co1", []⟩],
    student_marks := [⟨"m1", "s1", "q1", 5⟩] }

def dbC5 : DB :=
  { emptyDB with
    questions := [⟨"q1", "e1", 10, "coZ", []⟩],
    student_marks := [⟨"mX", "s1", "qMissing", 3⟩, ⟨"m1", "s1", "q1", 4⟩] }

def dbC5b : DB := { dbC5 with student_marks := [⟨"m1", "s1", "q1", 4⟩] }

def entryC5 : COAttainment := ⟨"Unknown", "Unknown", 40, 10, 4⟩

def cacheC6 : Cache := [("k", (.programs [⟨"p1", "P"⟩], 0))]

def cacheC7 : Cache :=
  [(get_cache_key "programs" "all", (.programs [⟨"p1", "P"⟩], 0)),
   (get_cache_key "admin_teachers" "all", (.users [], 0))]

def userC8 : User :=
  { id := "u1", name := "U", email := "a@x", role := "teacher", password_hash := "h",
    roll_number := none, semester := none, program_id := none,
    course_ids := [], assigned_courses := [] }

def dbC8 : DB := { emptyDB with users := [userC8] }

def qC9 : Question := ⟨"q1", "e1", 10, "co1", []⟩

def rC9 : StudentMark := ⟨"m1", "s1", "q1", 4⟩

def rC9b : StudentMark := ⟨"m2", "s1", "q1", 4⟩

def dbC9 : DB := { emptyDB with questions := [qC9], student_marks := [rC9] }

def studentC10 : User :=
  { id := "s1", name := "S", email := "s@x", role := "student", password_hash := "h",
    roll_number := none, semester := some 1, program_id := some "p1",
    course_ids := ["c1"], assigned_courses := [] }

def teacherC10 : User :=
  { id := "t1", name := "T", email := "t@x", role := "teacher", password_hash := "h",
    roll_number := none, semester := none, program_id := none,
    course_ids := [], assigned_courses := ["c1"] }

def dbC10 : DB :=
  { emptyDB with
    users := [studentC10, teacherC10],
    programs := [⟨"p1", "P"⟩],
    courses := [⟨"c1", "C", 1, "p1"⟩],
    course_outcomes := [⟨"co1", "c1", "CO1", "d"⟩],
    program_outcomes := [⟨"po1", "PO1", "d"⟩] }

def cacheC10 : Cache :=
  [(get_cache_key "programs" "all", (.programs [], 0)),
   (get_cache_key "courses" "all", (.courses [], 0)),
   (get_cache_key "courses" ("program_" ++ "p1"), (.courses [], 0)),
   (get_cache_key "course_outcomes" ("course_" ++ "c1"), (.courseOutcomes [], 0)),
   (get_cache_key "program_outcomes" "all", (.programOutcomes [], 0)),
   (get_cache_key "admin_students" "all", (.users [], 0)),
   (get_cache_key "admin_teachers" "all", (.users [], 0))]

def cacheC10b : Cache := [(get_cache_key "programs" "all", (.programs [⟨"p1", "P"⟩], 0))]

end EduMatrix

deriving instance DecidableEq for Except

namespace EduMatrix

/-! # Dict lemmas -/

theorem dictFind_nil {α : Type} (k : String) : dictFind ([] : List (String × α)) k = none := rfl

theorem dictFind_cons {α : Type} (e : String × α) (l : List (String × α)) (k : String) :
    dictFind (e :: l) k = if e.1 = k then some e.2 else dictFind l k := by
  by_cases h : e.1 = k <;> simp [dictFind, List.find?_cons, h]

theorem dictFind_dictErase_self {α : Type} (l : List (String × α)) (k : String) :
    dictFind (dictErase l k) k = none := by
  induction l with
  | nil => rfl
  | cons e es ih =>
      simp only [dictErase, List.filter_cons] at ih ⊢
      by_cases h : e.1 = k
      · simpa [h] using ih
      · simpa [h, dictFind_cons] using ih

theorem dictFind_dictErase_other {α : Type} (l : List (String × α)) (k k' : String)
    (h : k' ≠ k) : dictFind (dictErase l k) k' = dictFind l k' := by
  induction l with
  | nil => rfl
  | cons e es ih =>
      simp only [dictErase, List.filter_cons] at ih ⊢
      by_cases he : e.1 = k
      · have h2 : k ≠ k' := Ne.symm h
        simpa [he, dictFind_cons, h2] using ih
      · simp [he, dictFind_cons, ih]

theorem dictFind_dictSet_self {α : Type} (l : List (String × α)) (k : String) (v : α) :
    dictFind (dictSet l k v) k = some v := by
  induction l with
  | nil => simp [dictSet, dictFind_cons]
  | cons e es ih =>
      by_cases h : e.1 = k <;> simp [dictSet, h, dictFind_cons, ih]

theorem dictFind_dictSet_other {α : Type} (l : List (String × α)) (k k' : String) (v : α)
    (h : k' ≠ k) : dictFind (dictSet l k v) k' = dictFind l k' := by
  have h2 : k ≠ k' := Ne.symm h
  induction l with
  | nil => simp [dictSet, dictFind_cons, h2]
  | cons e es ih =>
      by_cases he : e.1 = k
      · have h3 : e.1 ≠ k' := by rw [he]; exact h2
        simp [dictSet, he, dictFind_cons, h2, h3]
      · simp [dictSet, he, dictFind_cons, ih]

theorem dictFind_eq_none_of_not_mem_keys {α : Type} (l : List (String × α)) (k : String)
    (h : k ∉ l.map Prod.fst) : dictFind l k = none := by
  induction l with
  | nil => rfl
  | cons e es ih =>
      simp only [List.map_cons, List.mem_cons] at h
      push_neg at h
      rw [dictFind_cons, if_neg (Ne.symm h.1), ih h.2]

/-! # co_performance lemmas -/

theorem dictFind_addPerf_self (perf : List (String × ℚ × ℚ)) (co : String) (m o : ℚ) :
    dictFind (addPerf perf co m o) co =
      some ((dictFind perf co).elim (m, o) (fun v => (v.1 + m, v.2 + o))) := by
  induction perf with
  | nil => simp [addPerf, dictFind_cons, dictFind_nil]
  | cons e rest ih =>
      by_cases h : e.1 = co
      · simp [addPerf, h, dictFind_cons]
      · simp [addPerf, h, dictFind_cons, ih]

theorem dictFind_addPerf_other (perf : List (String × ℚ × ℚ)) (co c : String) (m o : ℚ)
    (h : c ≠ co) : dictFind (addPerf perf co m o) c = dictFind perf c := by
  have h2 : co ≠ c := Ne.symm h
  induction perf with
  | nil => simp [addPerf, dictFind_cons, dictFind_nil, h2]
  | cons e rest ih =>
      by_cases he : e.1 = co
      · have h3 : e.1 ≠ c := by rw [he]; exact h2
        simp [addPerf, he, dictFind_cons, h2, h3]
      · simp [addPerf, he, dictFind_cons, ih]

theorem optAcc_nil (x : Option (ℚ × ℚ)) : optAcc x [] = x := by
  cases x <;> simp [optAcc]

theorem optAcc_cons (x : Option (ℚ × ℚ)) (c : ℚ × ℚ) (cs : List (ℚ × ℚ)) :
    optAcc x (c :: cs) = optAcc (some (x.elim c (fun v => (v.1 + c.1, v.2 + c.2)))) cs := by
  cases x <;> simp [optAcc, add_assoc]

theorem optAcc_none (cs : List (ℚ × ℚ)) :
    optAcc none cs =
      if cs = [] then none else some ((cs.map Prod.fst).sum, (cs.map Prod.snd).sum) := by
  cases cs <;> simp [optAcc]

theorem coContribs_nil (qs : List Question) (co : String) : coContribs qs [] co = [] := rfl

theorem coContribs_cons (qs : List Question) (m : StudentMark) (ms : List StudentMark)
    (co : String) :
    coContribs qs (m :: ms) co =
      (match qs.find? (fun q => q.id == m.question_id) with
       | some q =>
           if q.co_id = co then (q.max_marks, m.marks_obtained) :: coContribs qs ms co
           else coContribs qs ms co
       | none => coContribs qs ms co) := by
  cases hf : qs.find? (fun q => q.id == m.question_id) with
  | none => simp [coContribs, List.filterMap_cons, hf]
  | some q =>
      by_cases hc : q.co_id = co <;> simp [coContribs, List.filterMap_cons, hf, hc]

theorem dictFind_foldPerf (qs : List Question) (ms : List StudentMark)
    (perf : List (String × ℚ × ℚ)) (co : String) :
    dictFind (ms.foldl (perfStep qs) perf) co = optAcc (dictFind perf co) (coContribs qs ms co) := by
  induction ms generalizing perf with
  | nil => simp [coContribs_nil, optAcc_nil]
  | cons m ms ih =>
      rw [List.foldl_cons, coContribs_cons]
      cases hf : qs.find? (fun q => q.id == m.question_id) with
      | none => simp only [perfStep, hf]; exact ih perf
      | some q =>
          by_cases hc : q.co_id = co
          · simp only [perfStep, hf, hc, if_pos]
            rw [ih, dictFind_addPerf_self, optAcc_cons]
          · simp only [perfStep, hf, hc, if_neg, ite_false]
            rw [ih, dictFind_addPerf_other _ _ _ _ _ (fun hh => hc hh.symm)]

theorem dictFind_coPerformance (qs : List Question) (ms : List StudentMark) (co : String) :
    dictFind (coPerformance qs ms) co = optAcc none (coContribs qs ms co) := by
  unfold coPerformance
  rw [dictFind_foldPerf, dictFind_nil]

/-! # Per-student attainment lemmas -/

theorem dictFind_map_mk (cos : List CourseOutcome) (l : List (String × ℚ × ℚ)) (k : String) :
    dictFind (l.map (fun e => (e.1, mkCOAttainment cos e.1 e.2.1 e.2.2))) k =
      (dictFind l k).map (fun v => mkCOAttainment cos k v.1 v.2) := by
  induction l with
  | nil => rfl
  | cons e rest ih =>
      by_cases h : e.1 = k
      · simp [dictFind_cons, h]
      · simp [dictFind_cons, h, ih]

theorem dictFind_studentCO (db : DB) (sid co : String) :
    dictFind (get_student_co_attainment db sid) co =
      (optAcc none (coContribs db.questions (marksOf db sid) co)).map
        (fun v => mkCOAttainment db.course_outcomes co v.1 v.2) := by
  unfold get_student_co_attainment
  rw [dictFind_map_mk, dictFind_coPerformance]
  rfl

theorem mkCOAttainment_total (cos : List CourseOutcome) (co : String) (t o : ℚ) :
    (mkCOAttainment cos co t o).total_marks = t := by
  cases hf : cos.find? (fun c => c.id == co) <;> simp [mkCOAttainment, hf]

theorem mkCOAttainment_obtained (cos : List CourseOutcome) (co : String) (t o : ℚ) :
    (mkCOAttainment cos co t o).obtained_marks = o := by
  cases hf : cos.find? (fun c => c.id == co) <;> simp [mkCOAttainment, hf]

theorem mkCOAttainment_pct (cos : List CourseOutcome) (co : String) (t o : ℚ) :
    (mkCOAttainment cos co t o).attainment_percentage =
      round2 (if t > 0 then o / t * 100 else 0) := by
  cases hf : cos.find? (fun c => c.id == co) <;> simp [mkCOAttainment, hf]

theorem mkCOAttainment_unknown (cos : List CourseOutcome) (co : String) (t o : ℚ)
    (h : cos.find? (fun c => c.id == co) = none) :
    (mkCOAttainment cos co t o).co_code = "Unknown" ∧
      (mkCOAttainment cos co t o).description = "Unknown" := by
  simp [mkCOAttainment, h]

theorem round2_zero : round2 0 = 0 := of_decide_eq_true (by with_unfolding_all rfl)

theorem round2_pct_form (t o : ℚ) :
    round2 (if t > 0 then o / t * 100 else 0) =
      if 0 < t then round2 (100 * o / t) else 0 := by
  by_cases h : 0 < t
  · rw [if_pos h, if_pos h]
    have : o / t * 100 = 100 * o / t := by ring
    rw [this]
  · rw [if_neg h, if_neg h, round2_zero]

/-! # Distinctness of the co_performance keys -/

theorem addPerf_keys (perf : List (String × ℚ × ℚ)) (co : String) (m o : ℚ) :
    (addPerf perf co m o).map Prod.fst =
      if co ∈ perf.map Prod.fst then perf.map Prod.fst
      else perf.map Prod.fst ++ [co] := by
  induction perf with
  | nil => simp [addPerf]
  | cons e rest ih =>
      by_cases h : e.1 = co
      · simp [addPerf, h]
      · have h2 : ¬ co = e.1 := fun hh => h hh.symm
        by_cases hm : co ∈ rest.map Prod.fst
        · simp [addPerf, h, ih, hm, h2]
        · simp [addPerf, h, ih, hm, h2]

theorem nodup_keys_addPerf (perf : List (String × ℚ × ℚ)) (co : String) (m o : ℚ)
    (h : (perf.map Prod.fst).Nodup) : ((addPerf perf co m o).map Prod.fst).Nodup := by
  rw [addPerf_keys]
  split
  · exact h
  · next hm =>
      refine List.Nodup.append h (List.nodup_singleton co) ?_
      intro a ha hb
      simp only [List.mem_singleton] at hb
      subst hb
      exact hm ha

theorem nodup_keys_foldPerf (qs : List Question) (ms : List StudentMark) :
    ∀ perf, (perf.map Prod.fst).Nodup →
      ((ms.foldl (perfStep qs) perf).map Prod.fst).Nodup := by
  induction ms with
  | nil => intro perf h; exact h
  | cons m ms ih =>
      intro perf h
      rw [List.foldl_cons]
      apply ih
      unfold perfStep
      cases hf : qs.find? (fun q => q.id == m.question_id) with
      | none => exact h
      | some q => exact nodup_keys_addPerf _ _ _ _ h

theorem nodup_keys_studentCO (db : DB) (sid : String) :
    ((get_student_co_attainment db sid).map Prod.fst).Nodup := by
  unfold get_student_co_attainment
  rw [List.map_map]
  have hc : (Prod.fst ∘ fun (e : String × ℚ × ℚ) =>
      (e.1, mkCOAttainment db.course_outcomes e.1 e.2.1 e.2.2)) = Prod.fst := rfl
  rw [hc]
  exact nodup_keys_foldPerf _ _ [] (by simp)

/-! # Unresolved marks contribute nothing -/

theorem coPerformance_skip (qs : List Question) (m : StudentMark)
    (h : qs.find? (fun q => q.id == m.question_id) = none) (l1 l2 : List StudentMark) :
    coPerformance qs (l1 ++ m :: l2) = coPerformance qs (l1 ++ l2) := by
  unfold coPerformance
  rw [List.foldl_append, List.foldl_append, List.foldl_cons]
  congr 1
  unfold perfStep
  rw [h]

theorem studentCO_skips_unresolved (db : DB) (sid : String) (l1 l2 : List StudentMark)
    (m : StudentMark) (hmarks : db.student_marks = l1 ++ m :: l2)
    (h : db.questions.find? (fun q => q.id == m.question_id) = none) :
    get_student_co_attainment db sid =
      get_student_co_attainment { db with student_marks := l1 ++ l2 } sid := by
  unfold get_student_co_attainment
  simp only [hmarks]
  congr 1
  rw [List.filter_append, List.filter_append, List.filter_cons]
  by_cases hp : (m.student_id == sid) = true
  · rw [if_pos hp]
    exact coPerformance_skip db.questions m h _ _
  · rw [if_neg hp]

/-! # Class attainment lemmas -/

theorem optApp_nil (x : Option (List StudentAttainment)) : optApp x [] = x := by
  cases x <;> simp [optApp]

theorem optApp_assoc (x : Option (List StudentAttainment)) (a b : List StudentAttainment) :
    optApp (optApp x a) b = optApp x (a ++ b) := by
  cases x with
  | some l => simp [optApp]
  | none =>
      by_cases ha : a = []
      · subst ha; simp [optApp]
      · simp [optApp, ha]

theorem dictFind_addClassEntry_self (acc : List (String × ClassCOEntry)) (co : String)
    (d : COAttainment) (n : String) :
    dictFind (addClassEntry acc co d n) co =
      some ((dictFind acc co).elim
        ⟨d.co_code, d.description, [⟨n, d.attainment_percentage⟩]⟩
        (fun e => { e with student_attainments :=
            e.student_attainments ++ [⟨n, d.attainment_percentage⟩] })) := by
  induction acc with
  | nil => simp [addClassEntry, dictFind_cons, dictFind_nil]
  | cons e rest ih =>
      by_cases h : e.1 = co
      · simp [addClassEntry, h, dictFind_cons]
      · simp [addClassEntry, h, dictFind_cons, ih]

theorem dictFind_addClassEntry_other (acc : List (String × ClassCOEntry)) (co c : String)
    (d : COAttainment) (n : String) (h : c ≠ co) :
    dictFind (addClassEntry acc co d n) c = dictFind acc c := by
  have h2 : co ≠ c := Ne.symm h
  induction acc with
  | nil => simp [addClassEntry, dictFind_cons, dictFind_nil, h2]
  | cons e rest ih =>
      by_cases he : e.1 = co
      · have h3 : e.1 ≠ c := by rw [he]; exact h2
        simp [addClassEntry, he, dictFind_cons, h2, h3]
      · simp [addClassEntry, he, dictFind_cons, ih]

theorem dictFind_innerFold (n : String) (A : List (String × COAttainment)) :
    ∀ (acc : List (String × ClassCOEntry)) (co : String), (A.map Prod.fst).Nodup →
      (dictFind (A.foldl (fun acc e => addClassEntry acc e.1 e.2 n) acc) co).map
          ClassCOEntry.student_attainments =
        optApp ((dictFind acc co).map ClassCOEntry.student_attainments)
          (((dictFind A co).map (fun d =>
              (⟨n, d.attainment_percentage⟩ : StudentAttainment))).toList) := by
  induction A with
  | nil => intro acc co _; simp [dictFind_nil, optApp_nil]
  | cons e A ih =>
      intro acc co hnd
      rw [List.foldl_cons]
      simp only [List.map_cons, List.nodup_cons] at hnd
      by_cases h : e.1 = co
      · have hni : co ∉ A.map Prod.fst := by rw [← h]; exact hnd.1
        rw [ih _ co hnd.2, dictFind_eq_none_of_not_mem_keys A co hni,
          dictFind_cons, if_pos h, h]
        simp only [Option.map_none, Option.toList_none, optApp_nil,
          dictFind_addClassEntry_self, Option.map_some', Option.toList_some]
        cases hacc : dictFind acc co <;> simp [optApp]
      · have h2 : co ≠ e.1 := fun hh => h hh.symm
        rw [ih _ co hnd.2, dictFind_addClassEntry_other acc e.1 co e.2 n h2,
          dictFind_cons, if_neg h]

theorem dictFind_classStep (db : DB) (s : User) (acc : List (String × ClassCOEntry))
    (co : String) :
    (dictFind (classStep db acc s) co).map ClassCOEntry.student_attainments =
      optApp ((dictFind acc co).map ClassCOEntry.student_attainments)
        (((dictFind (get_student_co_attainment db s.id) co).map
            (fun d => (⟨s.name, d.attainment_percentage⟩ : StudentAttainment))).toList) := by
  unfold classStep
  exact dictFind_innerFold s.name _ acc co (nodup_keys_studentCO db s.id)

theorem dictFind_outerFold (db : DB) (students : List User) :
    ∀ (acc : List (String × ClassCOEntry)) (co : String),
      (dictFind (students.foldl (classStep db) acc) co).map ClassCOEntry.student_attainments =
        optApp ((dictFind acc co).map ClassCOEntry.student_attainments)
          (students.filterMap (fun s =>
            (dictFind (get_student_co_attainment db s.id) co).map
              (fun d => ⟨s.name, d.attainment_percentage⟩))) := by
  induction students with
  | nil => intro acc co; simp [optApp_nil]
  | cons s rest ih =>
      intro acc co
      rw [List.foldl_cons, ih, dictFind_classStep, optApp_assoc]
      cases hs : dictFind (get_student_co_attainment db s.id) co <;>
        simp [List.filterMap_cons, hs]

theorem dictFind_map_finalize (l : List (String × ClassCOEntry)) (k : String) :
    dictFind (l.map (fun e => (e.1, finalizeClassEntry e.2))) k =
      (dictFind l k).map finalizeClassEntry := by
  induction l with
  | nil => rfl
  | cons e rest ih =>
      by_cases h : e.1 = k
      · simp [dictFind_cons, h]
      · simp [dictFind_cons, h, ih]

theorem finalize_atts (e : ClassCOEntry) :
    (finalizeClassEntry e).student_attainments = e.student_attainments := rfl

theorem dictFind_classCO (db : DB) (course_id co : String) :
    (dictFind (get_class_co_attainment db course_id) co) =
      (dictFind ((enrolledStudents db course_id).foldl (classStep db) []) co).map
        finalizeClassEntry := by
  unfold get_class_co_attainment
  rw [dictFind_map_finalize]

theorem classFold_atts (db : DB) (course_id co : String) :
    (dictFind ((enrolledStudents db course_id).foldl (classStep db) []) co).map
        ClassCOEntry.student_attainments =
      optApp none (classContribs db course_id co) := by
  rw [dictFind_outerFold]
  rfl

/-! # Claim theorems -/

/-- C1: for every student, get_student_co_attainment groups that student's
marks solely by the resolved question's co_id — the group's total_marks is
the sum of the questions' max_marks and its obtained_marks the sum of the
marks_obtained, over all of the student's marks regardless of exam or
course — and reports attainment_percentage = round(100 * obtained / total, 2)
when total > 0, else 0; a student with no marks gets the empty mapping. -/
theorem student_co_attainment_spec (db : DB) (student_id co : String) :
    (marksOf db student_id = [] → get_student_co_attainment db student_id = []) ∧
    (∀ e, dictFind (get_student_co_attainment db student_id) co = some e →
       e.total_marks = sumMax db student_id co ∧
       e.obtained_marks = sumObt db student_id co ∧
       e.attainment_percentage =
         (if 0 < sumMax db student_id co
          then round2 (100 * sumObt db student_id co / sumMax db student_id co)
          else 0)) ∧
    (dictFind (get_student_co_attainment db student_id) co = none →
       coContribs db.questions (marksOf db student_id) co = []) := by
  refine ⟨?_, ?_, ?_⟩
  · intro h
    unfold get_student_co_attainment
    rw [show db.student_marks.filter (fun m => m.student_id == student_id) = [] from h]
    rfl
  · intro e he
    rw [dictFind_studentCO, optAcc_none] at he
    by_cases hc : coContribs db.questions (marksOf db student_id) co = []
    · rw [if_pos hc] at he; simp at he
    · rw [if_neg hc] at he
      simp only [Option.map_some'] at he
      have he' := (Option.some.inj he).symm
      subst he'
      refine ⟨mkCOAttainment_total _ _ _ _, mkCOAttainment_obtained _ _ _ _, ?_⟩
      rw [mkCOAttainment_pct, round2_pct_form]
      rfl
  · intro hnone
    rw [dictFind_studentCO, optAcc_none] at hnone
    by_cases hc : coContribs db.questions (marksOf db student_id) co = []
    · exact hc
    · rw [if_neg hc] at hnone; simp at hnone

/-- C1 witness: a single question of max_marks 10 under CO co1 and one mark
of 8.5 yields total 10, obtained 8.5 and percentage 85. -/
theorem student_co_attainment_spec_witness :
    entryC1.total_marks = sumMax dbC1 "s1" "co1" ∧
    entryC1.obtained_marks = sumObt dbC1 "s1" "co1" ∧
    entryC1.attainment_percentage =
      (if 0 < sumMax dbC1 "s1" "co1"
       then round2 (100 * sumObt dbC1 "s1" "co1" / sumMax dbC1 "s1" "co1")
       else 0) :=
  (student_co_attainment_spec dbC1 "s1" "co1").2.1 entryC1
    (of_decide_eq_true (by with_unfolding_all rfl))

/-- C5: the aggregator never propagates an internal lookup miss as an
error: a mark whose question_id resolves to no Question is skipped and
contributes nothing to any CO group, and a CO group whose co_id resolves
to no CourseOutcome is still reported with the placeholder Unknown for
code and description.  (The operation is total by construction.) -/
theorem aggregator_lookup_misses_degrade (db : DB) (student_id co : String) :
    (∀ l1 l2 m, db.student_marks = l1 ++ m :: l2 →
       db.questions.find? (fun q => q.id == m.question_id) = none →
       get_student_co_attainment db student_id =
         get_student_co_attainment { db with student_marks := l1 ++ l2 } student_id) ∧
    (∀ e, dictFind (get_student_co_attainment db student_id) co = some e →
       db.course_outcomes.find? (fun c => c.id == co) = none →
       e.co_code = "Unknown" ∧ e.description = "Unknown") := by
  constructor
  · intro l1 l2 m hm hq
    exact studentCO_skips_unresolved db student_id l1 l2 m hm hq
  · intro e he hco
    rw [dictFind_studentCO, optAcc_none] at he
    by_cases hc : coContribs db.questions (marksOf db student_id) co = []
    · rw [if_pos hc] at he; simp at he
    · rw [if_neg hc] at he
      simp only [Option.map_some'] at he
      have he' := (Option.some.inj he).symm
      subst he'
      exact mkCOAttainment_unknown _ _ _ _ hco

/-- C5 witness: a mark pointing at the missing question qMissing is
dropped without error, and the group of the unmapped CO coZ is reported
with the Unknown placeholders. -/
theorem aggregator_lookup_misses_degrade_witness :
    get_student_co_attainment dbC5 "s1" = get_student_co_attainment dbC5b "s1" ∧
    entryC5.co_code = "Unknown" ∧ entryC5.description = "Unknown" :=
  ⟨(aggregator_lookup_misses_degrade dbC5 "s1" "coZ").1
      [] [⟨"m1", "s1", "q1", 4⟩] ⟨"mX", "s1", "qMissing", 3⟩ rfl
      (of_decide_eq_true (by with_unfolding_all rfl)),
   (aggregator_lookup_misses_degrade dbC5 "s1" "coZ").2 entryC5
      (of_decide_eq_true (by with_unfolding_all rfl))
      (of_decide_eq_true (by with_unfolding_all rfl))⟩

/-- C9: the aggregation is not idempotent in mark rows: if a state already
contains a mark row r1 and a second row r2 with the same student and
question ids is added, the CO group of the resolved question gains the
question's max_marks in total_marks and r2's marks_obtained in
obtained_marks on top of r1's contribution, so the reported attainment
entry changes. -/
theorem duplicate_marks_double_count (db : DB) (r1 r2 : StudentMark) (q : Question)
    (h1 : r1 ∈ db.student_marks)
    (hs : r2.student_id = r1.student_id)
    (hq : r2.question_id = r1.question_id)
    (hfind : db.questions.find? (fun qq => qq.id == r1.question_id) = some q)
    (hM : q.max_marks ≠ 0) :
    sumMax { db with student_marks := db.student_marks ++ [r2] } r1.student_id q.co_id =
      sumMax db r1.student_id q.co_id + q.max_marks ∧
    sumObt { db with student_marks := db.student_marks ++ [r2] } r1.student_id q.co_id =
      sumObt db r1.student_id q.co_id + r2.marks_obtained ∧
    dictFind (get_student_co_attainment { db with student_marks := db.student_marks ++ [r2] }
        r1.student_id) q.co_id ≠
      dictFind (get_student_co_attainment db r1.student_id) q.co_id := by
  set db' : DB := { db with student_marks := db.student_marks ++ [r2] } with hdb
  have hmarks : marksOf db' r1.student_id = marksOf db r1.student_id ++ [r2] := by
    unfold marksOf
    rw [hdb]
    rw [List.filter_append]
    congr 1
    simp [hs]
  have hsingle : coContribs db.questions [r2] q.co_id = [(q.max_marks, r2.marks_obtained)] := by
    unfold coContribs
    rw [List.filterMap_cons]
    rw [hq, hfind]
    simp
  have hcontribs : coContribs db.questions (marksOf db' r1.student_id) q.co_id =
      coContribs db.questions (marksOf db r1.student_id) q.co_id ++
        [(q.max_marks, r2.marks_obtained)] := by
    rw [hmarks]
    unfold coContribs
    rw [List.filterMap_append]
    rw [show (List.filterMap _ [r2]) = coContribs db.questions [r2] q.co_id from rfl, hsingle]
  have hqs : db'.questions = db.questions := rfl
  have hsums1 : sumMax db' r1.student_id q.co_id = sumMax db r1.student_id q.co_id +
      q.max_marks := by
    unfold sumMax
    rw [hqs, hcontribs, List.map_append, List.sum_append]
    simp
  have hsums2 : sumObt db' r1.student_id q.co_id = sumObt db r1.student_id q.co_id +
      r2.marks_obtained := by
    unfold sumObt
    rw [hqs, hcontribs, List.map_append, List.sum_append]
    simp
  refine ⟨hsums1, hsums2, ?_⟩
  have hmem : r1 ∈ marksOf db r1.student_id := by
    unfold marksOf
    exact List.mem_filter.mpr ⟨h1, by simp⟩
  have hne : coContribs db.questions (marksOf db r1.student_id) q.co_id ≠ [] := by
    apply List.ne_nil_of_mem (a := (q.max_marks, r1.marks_obtained))
    unfold coContribs
    exact List.mem_filterMap.mpr ⟨r1, hmem, by rw [hfind]; simp⟩
  have hne' : coContribs db.questions (marksOf db' r1.student_id) q.co_id ≠ [] := by
    rw [hcontribs]
    simp
  intro heq
  rw [dictFind_studentCO, dictFind_studentCO, optAcc_none, optAcc_none,
    if_neg hne, if_neg hne'] at heq
  simp only [Option.map_some', Option.some.injEq] at heq
  have htot := congrArg COAttainment.total_marks heq
  rw [mkCOAttainment_total, mkCOAttainment_total] at htot
  have : sumMax db' r1.student_id q.co_id = sumMax db r1.student_id q.co_id := htot
  rw [hsums1] at this
  exact hM (by linarith)

/-- C9 witness: adding a second identical mark row for (s1, q1) doubles
the co1 group's totals and changes the reported attainment entry. -/
theorem duplicate_marks_double_count_witness :
    sumMax { dbC9 with student_marks := dbC9.student_marks ++ [rC9b] } "s1" "co1" =
      sumMax dbC9 "s1" "co1" + 10 ∧
    sumObt { dbC9 with student_marks := dbC9.student_marks ++ [rC9b] } "s1" "co1" =
      sumObt dbC9 "s1" "co1" + 4 ∧
    dictFind (get_student_co_attainment
        { dbC9 with student_marks := dbC9.student_marks ++ [rC9b] } "s1") "co1" ≠
      dictFind (get_student_co_attainment dbC9 "s1") "co1" :=
  duplicate_marks_double_count dbC9 rC9 rC9b qC9
    (of_decide_eq_true (by with_unfolding_all rfl)) rfl rfl
    (of_decide_eq_true (by with_unfolding_all rfl))
    (of_decide_eq_true (by with_unfolding_all rfl))

/-- C2: get_class_co_attainment computes, per CO, the class average as
round(mean of the enrolled students' per-CO attainment percentages, 2) —
a mean of per-student percentages — where an enrolled student with no
attainment data for a CO is simply absent from that CO's list, and the
average is 0 exactly when the list is empty (a case the construction never
produces for a reported CO). -/
theorem class_co_attainment_spec (db : DB) (course_id co : String) :
    (∀ e, dictFind (get_class_co_attainment db course_id) co = some e →
       e.student_attainments = classContribs db course_id co ∧
       e.class_average =
         (if e.student_attainments = [] then 0
          else round2 ((e.student_attainments.map (fun s => s.attainment_percentage)).sum /
            (e.student_attainments.length : ℚ)))) ∧
    (dictFind (get_class_co_attainment db course_id) co = none →
       classContribs db course_id co = []) := by
  have hkey := classFold_atts db course_id co
  constructor
  · intro e he
    rw [dictFind_classCO] at he
    cases hf : dictFind ((enrolledStudents db course_id).foldl (classStep db) []) co with
    | none => rw [hf] at he; simp at he
    | some E =>
        rw [hf] at he
        simp only [Option.map_some'] at he
        have he' := (Option.some.inj he).symm
        subst he'
        rw [hf] at hkey
        simp only [Option.map_some'] at hkey
        by_cases hc : classContribs db course_id co = []
        · rw [hc] at hkey; simp [optApp] at hkey
        · have hsome : optApp none (classContribs db course_id co) =
              some (classContribs db course_id co) := by simp [optApp, hc]
          rw [hsome] at hkey
          have hEatts : E.student_attainments = classContribs db course_id co :=
            Option.some.inj hkey
          refine ⟨by rw [finalize_atts, hEatts], ?_⟩
          rw [finalize_atts]
          show (finalizeClassEntry E).class_average = _
          unfold finalizeClassEntry
          by_cases hE : E.student_attainments = []
          · simp [hE]
          · have hmapne : E.student_attainments.map
                (fun s => s.attainment_percentage) ≠ [] := by
              simpa using hE
            simp [hE, hmapne]
  · intro he
    rw [dictFind_classCO] at he
    have hf : dictFind ((enrolledStudents db course_id).foldl (classStep db) []) co = none := by
      cases hff : dictFind ((enrolledStudents db course_id).foldl (classStep db) []) co with
      | none => rfl
      | some E => rw [hff] at he; simp at he
    rw [hf] at hkey
    by_cases hc : classContribs db course_id co = []
    · exact hc
    · simp [optApp, hc] at hkey

/-- C2 witness: with Alice contributing 85 percent on CO co1 and Bob
enrolled but without marks, the CO's list holds only Alice and the class
average equals her percentage. -/
theorem class_co_attainment_spec_witness :
    entryC2.student_attainments = classContribs dbC2 "c1" "co1" ∧
    entryC2.class_average =
      (if entryC2.student_attainments = [] then 0
       else round2 ((entryC2.student_attainments.map (fun s => s.attainment_percentage)).sum /
         (entryC2.student_attainments.length : ℚ))) :=
  (class_co_attainment_spec dbC2 "c1" "co1").1 entryC2
    (of_decide_eq_true (by with_unfolding_all rfl))

/-- C3: for a gate require_role R, any credential that fails to resolve to
a stored principal (missing, malformed or expired token, no sub claim, or
an email matching no user) fails with Unauthenticated before any role
check; a resolved principal whose role is not literally R fails with
Forbidden — there is no role hierarchy, the comparison is string equality
— and a resolved principal with role exactly R is admitted. -/
theorem require_role_spec (db : DB) (cred : Credential) (R : String) :
    (get_current_user db cred = .error .unauthenticated →
       require_role R db cred = .error .unauthenticated) ∧
    (∀ u, get_current_user db cred = .ok u →
       (u.role ≠ R → require_role R db cred = .error .forbidden) ∧
       (u.role = R → require_role R db cred = .ok u)) ∧
    ((cred = .missing ∨ cred = .invalid ∨ cred = .noSub) →
       get_current_user db cred = .error .unauthenticated) ∧
    (∀ email, cred = .token email →
       db.users.find? (fun u => u.email == email) = none →
       get_current_user db cred = .error .unauthenticated) := by
  refine ⟨?_, ?_, ?_, ?_⟩
  · intro h
    unfold require_role
    rw [h]
  · intro u hu
    constructor
    · intro hr
      unfold require_role
      rw [hu]
      simp [hr]
    · intro hr
      unfold require_role
      rw [hu]
      simp [hr]
  · rintro (rfl | rfl | rfl) <;> rfl
  · intro email hcred hfind
    subst hcred
    simp only [get_current_user, hfind]

/-- C3 witness: a teacher-role credential against an admin gate is
rejected with Forbidden, not admitted. -/
theorem require_role_spec_witness :
    require_role "admin" dbC3 (.token "t@x") = .error .forbidden :=
  ((require_role_spec dbC3 (.token "t@x") "admin").2.1 teacherC3
    (of_decide_eq_true (by with_unfolding_all rfl))).1 (by decide)

/-- C4 counterexample: the claim says an analytics read populates the
Result Cache on a miss before returning; on a concrete state with one
mark, the per-student analytics read computes a non-empty result yet
leaves the empty cache empty. -/
theorem analytics_cache_counterexample :
    (get_student_co_attainment_endpoint dbC4 [] "s1").2 = [] ∧
    (get_student_co_attainment_endpoint dbC4 [] "s1").1 ≠ [] :=
  ⟨rfl, of_decide_eq_true (by with_unfolding_all rfl)⟩

/-- C4 amended: the analytics reads (per-student CO attainment and class
CO attainment) bypass the Result Cache entirely: the response is computed
from the Record Store alone, does not depend on the cache contents, and
the cache is left exactly as it was — only the list endpoints are
cache-fronted. -/
theorem analytics_bypass_cache (db : DB) (c c' : Cache) (student_id course_id : String) :
    (get_student_co_attainment_endpoint db c student_id).1 =
      (get_student_co_attainment_endpoint db c' student_id).1 ∧
    (get_student_co_attainment_endpoint db c student_id).2 = c ∧
    (get_class_co_attainment_endpoint db c course_id).1 =
      (get_class_co_attainment_endpoint db c' course_id).1 ∧
    (get_class_co_attainment_endpoint db c course_id).2 = c :=
  ⟨rfl, rfl, rfl, rfl⟩

/-- C6: get_cached_data returns the stored value while now - timestamp is
under the ttl, and otherwise deletes the entry (leaving every other key
untouched) and signals a miss; set_cached_data stores the value with the
current timestamp, overwriting any prior entry for that key only. -/
theorem cache_get_set_spec (cache : Cache) (key : String) (ttl now ts : ℚ) (v : CacheVal) :
    (dictFind cache key = some (v, ts) →
       (now - ts < ttl → get_cached_data cache key ttl now = (some v, cache)) ∧
       (¬ now - ts < ttl →
          get_cached_data cache key ttl now = (none, dictErase cache key) ∧
          dictFind (dictErase cache key) key = none ∧
          (∀ k, k ≠ key → dictFind (dictErase cache key) k = dictFind cache k))) ∧
    (dictFind cache key = none → get_cached_data cache key ttl now = (none, cache)) ∧
    dictFind (set_cached_data cache key v now) key = some (v, now) ∧
    (∀ k, k ≠ key → dictFind (set_cached_data cache key v now) k = dictFind cache k) := by
  refine ⟨?_, ?_, ?_, ?_⟩
  · intro h
    constructor
    · intro hf
      simp only [get_cached_data, h]
      rw [if_pos hf]
    · intro hf
      refine ⟨?_, dictFind_dictErase_self cache key, fun k hk =>
        dictFind_dictErase_other cache key k hk⟩
      simp only [get_cached_data, h]
      rw [if_neg hf]
  · intro h
    simp only [get_cached_data, h]
  · exact dictFind_dictSet_self cache key (v, now)
  · exact fun k hk => dictFind_dictSet_other cache key k (v, now) hk

/-- C6 witness: a fresh entry is served unchanged; a stale one is evicted
and reported as a miss. -/
theorem cache_get_set_spec_witness :
    get_cached_data cacheC6 "k" 60 10 = (some (.programs [⟨"p1", "P"⟩]), cacheC6) ∧
    get_cached_data cacheC6 "k" 60 100 = (none, dictErase cacheC6 "k") :=
  ⟨((cache_get_set_spec cacheC6 "k" 60 10 0 (.programs [⟨"p1", "P"⟩])).1
      (of_decide_eq_true (by with_unfolding_all rfl))).1
      (of_decide_eq_true (by with_unfolding_all rfl)),
   (((cache_get_set_spec cacheC6 "k" 60 100 0 (.programs [⟨"p1", "P"⟩])).1
      (of_decide_eq_true (by with_unfolding_all rfl))).2
      (of_decide_eq_true (by with_unfolding_all rfl))).1⟩

/-- C8: every principal-creating operation — self registration, admin
creation of a student, admin creation of a teacher — fails with Conflict
and inserts nothing whenever some stored principal already has the
requested email, whatever either role is; and each of them preserves
global email uniqueness across the users collection. -/
theorem email_uniqueness_preserved (db : DB) (cache : Cache)
    (id name roll_number email password_hash role program_id : String)
    (semOpt : Option Int) (progOpt : Option String) (semester : Int)
    (course_ids assigned : List String) :
    ((∃ u ∈ db.users, u.email = email) →
       register db cache id name email password_hash role semOpt progOpt =
         (.error .conflict, db, cache) ∧
       create_student db cache id name roll_number email password_hash semester program_id
           course_ids = (.error .conflict, db, cache) ∧
       create_teacher db cache id name email password_hash assigned =
         (.error .conflict, db, cache)) ∧
    (emailsUnique db →
       emailsUnique (register db cache id name email password_hash role semOpt progOpt).2.1 ∧
       emailsUnique (create_student db cache id name roll_number email password_hash semester
           program_id course_ids).2.1 ∧
       emailsUnique (create_teacher db cache id name email password_hash assigned).2.1) := by
  cases hf : db.users.find? (fun u => u.email == email) with
  | some u0 =>
      constructor
      · intro _
        refine ⟨?_, ?_, ?_⟩ <;> simp [register, create_student, create_teacher, hf]
      · intro hu
        refine ⟨?_, ?_, ?_⟩ <;> simp [register, create_student, create_teacher, hf] <;>
          exact hu
  | none =>
      constructor
      · intro hex
        exfalso
        obtain ⟨u, hu, he⟩ := hex
        have hne := List.find?_eq_none.mp hf u hu
        simp [he] at hne
      · intro hu
        have hall : ∀ u ∈ db.users, u.email ≠ email := by
          intro u hu'
          have := List.find?_eq_none.mp hf u hu'
          simpa using this
        refine ⟨?_, ?_, ?_⟩ <;>
          simp only [register, create_student, create_teacher, hf] <;>
          unfold emailsUnique <;>
          simp only [] <;>
          rw [List.pairwise_append] <;>
          exact ⟨hu, List.pairwise_singleton _ _, by
            intro a ha b hb
            simp only [List.mem_singleton] at hb
            subst hb
            exact hall a ha⟩

/-- C8 witness: a second principal with the stored email a@x is rejected
with Conflict by all three creation paths, leaving the store unchanged. -/
theorem email_uniqueness_preserved_witness :
    register dbC8 [] "u2" "V" "a@x" "h2" "student" none none = (.error .conflict, dbC8, []) ∧
    create_student dbC8 [] "u2" "V" "r1" "a@x" "h2" 1 "p1" [] =
      (.error .conflict, dbC8, []) ∧
    create_teacher dbC8 [] "u2" "V" "a@x" "h2" [] = (.error .conflict, dbC8, []) :=
  (email_uniqueness_preserved dbC8 [] "u2" "V" "r1" "a@x" "h2" "student" "p1"
    none none 1 [] []).1 (of_decide_eq_true (by with_unfolding_all rfl))

/-- C7: the write handlers other than create_program_outcome and
create_teacher (program, course, course outcome, CO/PO mapping, exam,
question, marks, registration, admin student creation) leave every Result
Cache entry unchanged, so a reader is served the stale cached list within
the ttl window after such a write; create_program_outcome deletes exactly
the key program_outcomes:all and a successful create_teacher deletes
exactly the key admin_teachers:all, every other key being untouched. -/
theorem writes_cache_frame (db : DB) (cache : Cache)
    (id name co_code po_code description course_id program_id co_id po_id exam_type
      email password_hash role roll_number question_id student_id : String)
    (semester : Int) (max_marks marks_obtained : ℚ)
    (po_ids course_ids assigned : List String)
    (semOpt : Option Int) (progOpt : Option String)
    (now ts : ℚ) (pl : List Program) :
    (create_program db cache id name).2 = cache ∧
    (create_course db cache id name semester program_id).2 = cache ∧
    (create_course_outcome db cache id course_id co_code description).2 = cache ∧
    (create_co_po_mapping db cache id co_id po_id).2 = cache ∧
    (create_exam db cache id course_id exam_type).2 = cache ∧
    (create_question db cache id exam_type max_marks co_id po_ids).2 = cache ∧
    (create_student_marks db cache id student_id question_id marks_obtained).2 = cache ∧
    (register db cache id name email password_hash role semOpt progOpt).2.2 = cache ∧
    (create_student db cache id name roll_number email password_hash semester program_id
        course_ids).2.2 = cache ∧
    (create_program_outcome db cache id po_code description).2 =
      dictErase cache (get_cache_key "program_outcomes" "all") ∧
    dictFind (create_program_outcome db cache id po_code description).2
      (get_cache_key "program_outcomes" "all") = none ∧
    (∀ k, k ≠ get_cache_key "program_outcomes" "all" →
       dictFind (create_program_outcome db cache id po_code description).2 k =
         dictFind cache k) ∧
    (db.users.find? (fun u => u.email == email) = none →
       (create_teacher db cache id name email password_hash assigned).2.2 =
         dictErase cache (get_cache_key "admin_teachers" "all") ∧
       dictFind (create_teacher db cache id name email password_hash assigned).2.2
         (get_cache_key "admin_teachers" "all") = none ∧
       (∀ k, k ≠ get_cache_key "admin_teachers" "all" →
          dictFind (create_teacher db cache id name email password_hash assigned).2.2 k =
            dictFind cache k)) ∧
    (dictFind cache (get_cache_key "programs" "all") = some (.programs pl, ts) →
       pl ≠ [] → now - ts < 60 →
       get_programs (create_program db cache id name).1 (create_program db cache id name).2
         now = (pl, cache)) := by
  refine ⟨rfl, rfl, rfl, rfl, rfl, rfl, rfl, ?_, ?_, rfl, ?_, ?_, ?_, ?_⟩
  · cases hf : db.users.find? (fun u => u.email == email) <;> simp [register, hf]
  · cases hf : db.users.find? (fun u => u.email == email) <;> simp [create_student, hf]
  · exact dictFind_dictErase_self cache _
  · exact fun k hk => dictFind_dictErase_other cache _ k hk
  · intro hf
    refine ⟨?_, ?_, ?_⟩
    · simp [create_teacher, hf]
    · simp only [create_teacher, hf]
      exact dictFind_dictErase_self cache _
    · intro k hk
      simp only [create_teacher, hf]
      exact dictFind_dictErase_other cache _ k hk
  · intro h hne hf
    simp only [get_programs, get_cached_data, create_program, h]
    rw [if_pos hf]
    simp [hne]

/-- C7 witness: with a cached non-empty programs list and a cached
admin_teachers entry, creating a teacher deletes exactly the
admin_teachers key, and after creating a program the programs read still
serves the stale cached list inside the ttl window. -/
theorem writes_cache_frame_witness :
    (create_teacher emptyDB cacheC7 "t1" "T" "t@x" "h" []).2.2 =
      dictErase cacheC7 (get_cache_key "admin_teachers" "all") ∧
    get_programs (create_program emptyDB cacheC7 "p2" "Q").1
      (create_program emptyDB cacheC7 "p2" "Q").2 10 = ([⟨"p1", "P"⟩], cacheC7) :=
  ⟨((writes_cache_frame emptyDB cacheC7 "t1" "T" "cc" "pc" "d" "c1" "p1" "co1" "po1" "E"
      "t@x" "h" "student" "r1" "q1" "s1" 1 0 0 [] [] [] none none 10 0
      [⟨"p1", "P"⟩]).2.2.2.2.2.2.2.2.2.2.2.2.1
      (of_decide_eq_true (by with_unfolding_all rfl))).1,
   (writes_cache_frame emptyDB cacheC7 "p2" "Q" "cc" "pc" "d" "c1" "p1" "co1" "po1" "E"
      "t@x" "h" "student" "r1" "q1" "s1" 1 0 0 [] [] [] none none 10 0
      [⟨"p1", "P"⟩]).2.2.2.2.2.2.2.2.2.2.2.2.2
      (of_decide_eq_true (by with_unfolding_all rfl))
      (of_decide_eq_true (by with_unfolding_all rfl))
      (of_decide_eq_true (by with_unfolding_all rfl))⟩

/-- C10: on every cached list endpoint (programs, courses, courses by
program, course outcomes by course, program outcomes, admin student and
teacher listings) a stored cache entry holding an empty list is treated
as a miss even inside the ttl window — the store is re-queried and the
result re-cached — while a non-empty fresh entry is served stale from the
cache; so the stale-read-within-ttl behavior applies only to non-empty
cached results. -/
theorem cached_list_truthiness (db : DB) (cache : Cache) (now ts : ℚ)
    (program_id course_id : String) (pl : List Program) (cl cl2 : List Course)
    (col : List CourseOutcome) (pol : List ProgramOutcome) (ul ul2 : List User) :
    (dictFind cache (get_cache_key "programs" "all") = some (.programs [], ts) →
       now - ts < 60 →
       get_programs db cache now = (db.programs,
         set_cached_data cache (get_cache_key "programs" "all") (.programs db.programs) now)) ∧
    (dictFind cache (get_cache_key "programs" "all") = some (.programs pl, ts) →
       pl ≠ [] → now - ts < 60 → get_programs db cache now = (pl, cache)) ∧
    (dictFind cache (get_cache_key "courses" "all") = some (.courses [], ts) →
       now - ts < 60 →
       get_courses db cache now = (db.courses,
         set_cached_data cache (get_cache_key "courses" "all") (.courses db.courses) now)) ∧
    (dictFind cache (get_cache_key "courses" "all") = some (.courses cl, ts) →
       cl ≠ [] → now - ts < 60 → get_courses db cache now = (cl, cache)) ∧
    (dictFind cache (get_cache_key "courses" ("program_" ++ program_id)) =
        some (.courses [], ts) →
       now - ts < 60 →
       get_courses_by_program db cache now program_id =
         (db.courses.filter (fun c => c.program_id == program_id),
          set_cached_data cache (get_cache_key "courses" ("program_" ++ program_id))
            (.courses (db.courses.filter (fun c => c.program_id == program_id))) now)) ∧
    (dictFind cache (get_cache_key "courses" ("program_" ++ program_id)) =
        some (.courses cl2, ts) →
       cl2 ≠ [] → now - ts < 60 →
       get_courses_by_program db cache now program_id = (cl2, cache)) ∧
    (dictFind cache (get_cache_key "course_outcomes" ("course_" ++ course_id)) =
        some (.courseOutcomes [], ts) →
       now - ts < 60 →
       get_course_outcomes_by_course db cache now course_id =
         (db.course_outcomes.filter (fun c => c.course_id == course_id),
          set_cached_data cache (get_cache_key "course_outcomes" ("course_" ++ course_id))
            (.courseOutcomes (db.course_outcomes.filter (fun c => c.course_id == course_id)))
            now)) ∧
    (dictFind cache (get_cache_key "course_outcomes" ("course_" ++ course_id)) =
        some (.courseOutcomes col, ts) →
       col ≠ [] → now - ts < 60 →
       get_course_outcomes_by_course db cache now course_id = (col, cache)) ∧
    (dictFind cache (get_cache_key "program_outcomes" "all") =
        some (.programOutcomes [], ts) →
       now - ts < 60 →
       get_program_outcomes db cache now = (db.program_outcomes,
         set_cached_data cache (get_cache_key "program_outcomes" "all")
           (.programOutcomes db.program_outcomes) now)) ∧
    (dictFind cache (get_cache_key "program_outcomes" "all") =
        some (.programOutcomes pol, ts) →
       pol ≠ [] → now - ts < 60 → get_program_outcomes db cache now = (pol, cache)) ∧
    (dictFind cache (get_cache_key "admin_students" "all") = some (.users [], ts) →
       now - ts < 30 →
       get_all_students db cache now =
         ((db.users.filter (fun u => u.role == "student")).map sansSecret,
          set_cached_data cache (get_cache_key "admin_students" "all")
            (.users ((db.users.filter (fun u => u.role == "student")).map sansSecret)) now)) ∧
    (dictFind cache (get_cache_key "admin_students" "all") = some (.users ul, ts) →
       ul ≠ [] → now - ts < 30 → get_all_students db cache now = (ul, cache)) ∧
    (dictFind cache (get_cache_key "admin_teachers" "all") = some (.users [], ts) →
       now - ts < 30 →
       get_all_teachers db cache now =
         ((db.users.filter (fun u => u.role == "teacher")).map sansSecret,
          set_cached_data cache (get_cache_key "admin_teachers" "all")
            (.users ((db.users.filter (fun u => u.role == "teacher")).map sansSecret)) now)) ∧
    (dictFind cache (get_cache_key "admin_teachers" "all") = some (.users ul2, ts) →
       ul2 ≠ [] → now - ts < 30 → get_all_teachers db cache now = (ul2, cache)) := by
  refine ⟨?_, ?_, ?_, ?_, ?_, ?_, ?_, ?_, ?_, ?_, ?_, ?_, ?_, ?_⟩
  · intro h hf
    simp only [get_programs, get_cached_data, h]
    rw [if_pos hf]
    simp
  · intro h hne hf
    simp only [get_programs, get_cached_data, h]
    rw [if_pos hf]
    simp [hne]
  · intro h hf
    simp only [get_courses, get_cached_data, h]
    rw [if_pos hf]
    simp
  · intro h hne hf
    simp only [get_courses, get_cached_data, h]
    rw [if_pos hf]
    simp [hne]
  · intro h hf
    simp only [get_courses_by_program, get_cached_data, h]
    rw [if_pos hf]
    simp
  · intro h hne hf
    simp only [get_courses_by_program, get_cached_data, h]
    rw [if_pos hf]
    simp [hne]
  · intro h hf
    simp only [get_course_outcomes_by_course, get_cached_data, h]
    rw [if_pos hf]
    simp
  · intro h hne hf
    simp only [get_course_outcomes_by_course, get_cached_data, h]
    rw [if_pos hf]
    simp [hne]
  · intro h hf
    simp only [get_program_outcomes, get_cached_data, h]
    rw [if_pos hf]
    simp
  · intro h hne hf
    simp only [get_program_outcomes, get_cached_data, h]
    rw [if_pos hf]
    simp [hne]
  · intro h hf
    simp only [get_all_students, get_cached_data, h]
    rw [if_pos hf]
    simp
  · intro h hne hf
    simp only [get_all_students, get_cached_data, h]
    rw [if_pos hf]
    simp [hne]
  · intro h hf
    simp only [get_all_teachers, get_cached_data, h]
    rw [if_pos hf]
    simp
  · intro h hne hf
    simp only [get_all_teachers, get_cached_data, h]
    rw [if_pos hf]
    simp [hne]

/-- C10 witness: with fresh empty entries stored under all seven list
keys, every endpoint re-queries the store and re-caches within the ttl,
while a fresh non-empty programs entry is served stale from the cache. -/
theorem cached_list_truthiness_witness :
    get_programs dbC10 cacheC10 10 = (dbC10.programs,
      set_cached_data cacheC10 (get_cache_key "programs" "all")
        (.programs dbC10.programs) 10) ∧
    get_courses dbC10 cacheC10 10 = (dbC10.courses,
      set_cached_data cacheC10 (get_cache_key "courses" "all")
        (.courses dbC10.courses) 10) ∧
    get_courses_by_program dbC10 cacheC10 10 "p1" =
      (dbC10.courses.filter (fun c => c.program_id == "p1"),
       set_cached_data cacheC10 (get_cache_key "courses" ("program_" ++ "p1"))
         (.courses (dbC10.courses.filter (fun c => c.program_id == "p1"))) 10) ∧
    get_course_outcomes_by_course dbC10 cacheC10 10 "c1" =
      (dbC10.course_outcomes.filter (fun c => c.course_id == "c1"),
       set_cached_data cacheC10 (get_cache_key "course_outcomes" ("course_" ++ "c1"))
         (.courseOutcomes (dbC10.course_outcomes.filter (fun c => c.course_id == "c1"))) 10) ∧
    get_program_outcomes dbC10 cacheC10 10 = (dbC10.program_outcomes,
      set_cached_data cacheC10 (get_cache_key "program_outcomes" "all")
        (.programOutcomes dbC10.program_outcomes) 10) ∧
    get_all_students dbC10 cacheC10 10 =
      ((dbC10.users.filter (fun u => u.role == "student")).map sansSecret,
       set_cached_data cacheC10 (get_cache_key "admin_students" "all")
         (.users ((dbC10.users.filter (fun u => u.role == "student")).map sansSecret)) 10) ∧
    get_all_teachers dbC10 cacheC10 10 =
      ((dbC10.users.filter (fun u => u.role == "teacher")).map sansSecret,
       set_cached_data cacheC10 (get_cache_key "admin_teachers" "all")
         (.users ((dbC10.users.filter (fun u => u.role == "teacher")).map sansSecret)) 10) ∧
    get_programs dbC10 cacheC10b 10 = ([⟨"p1", "P"⟩], cacheC10b) := by
  have ht := cached_list_truthiness dbC10 cacheC10 10 0 "p1" "c1" [] [] [] [] [] [] []
  have ht2 := cached_list_truthiness dbC10 cacheC10b 10 0 "p1" "c1" [⟨"p1", "P"⟩]
    [] [] [] [] [] []
  have hlt60 : (10 : ℚ) - 0 < 60 := of_decide_eq_true (by with_unfolding_all rfl)
  have hlt30 : (10 : ℚ) - 0 < 30 := of_decide_eq_true (by with_unfolding_all rfl)
  refine ⟨?_, ?_, ?_, ?_, ?_, ?_, ?_, ?_⟩
  · exact ht.1 (of_decide_eq_true (by with_unfolding_all rfl)) hlt60
  · exact ht.2.2.1 (of_decide_eq_true (by with_unfolding_all rfl)) hlt60
  · exact ht.2.2.2.2.1 (of_decide_eq_true (by with_unfolding_all rfl)) hlt60
  · exact ht.2.2.2.2.2.2.1 (of_decide_eq_true (by with_unfolding_all rfl)) hlt60
  · exact ht.2.2.2.2.2.2.2.2.1 (of_decide_eq_true (by with_unfolding_all rfl)) hlt60
  · exact ht.2.2.2.2.2.2.2.2.2.2.1 (of_decide_eq_true (by with_unfolding_all rfl)) hlt30
  · exact ht.2.2.2.2.2.2.2.2.2.2.2.2.1 (of_decide_eq_true (by with_unfolding_all rfl)) hlt30
  · exact ht2.2.1 (of_decide_eq_true (by with_unfolding_all rfl))
      (of_decide_eq_true (by with_unfolding_all rfl)) hlt60

end EduMatrix

